import Mathlib

/-!
Shallow embedding of the olemorud/json-parser C sources.

The embedding mirrors the translation units of the repository:
* `CJson`     : shared byte-stream model (stdio FILE operations restricted to
                the ways this program uses them) and C string comparisons.
* `JsonObj`   : src/json_obj.c compiled against include/json_obj.h
                (OBJ_SIZE = 1024 there).
* `JsonValue` : src/json_value.c compiled against include/json_value.h and
                include/config.h (OBJ_SIZE = 32 there), including the printer.
* `Util`      : the error-context renderer of src/util.c
                (ERROR_CONTEXT_LEN = 60 from include/config.h).
* `Parse`     : src/parse.c (which defines its own EARLY_EOF = 202 and
                UNEXPECTED_CHAR = 200 macros, shadowing config.h).

Machine integers: `size_t` arithmetic in the hash is taken modulo 2^64
explicitly.  `double` is modelled by `ℚ`; every numeric value appearing in a
theorem below is a small integer-valued literal, on which decimal scanning and
printf "%lf" formatting are exact, so the idealization is faithful on every
input any theorem evaluates.  A `double` that the C code leaves uninitialized
(read_number when fscanf fails to match) is modelled as `Option.none`.

Looping C functions are embedded with an explicit fuel argument (structural
recursion on fuel) so that every definition is executable and kernel-reducible;
concrete theorems instantiate fuel generously, and no theorem concludes
anything from fuel exhaustion.
-/

namespace CJson

/-- A seekable byte stream: the whole file contents plus the current offset.
Every `ungetc` in the program pushes back exactly the byte just read, and every
relative `fseek` lands on bytes previously read, so a fixed byte list with a
cursor models the FILE faithfully. -/
structure Stream where
  data : List Nat
  pos : Nat
deriving Repr, DecidableEq

/-- fgetc: return the byte at the cursor and advance, or EOF (`none`). -/
def Stream.fgetc (st : Stream) : Option Nat × Stream :=
  match st.data.get? st.pos with
  | some c => (some c, ⟨st.data, st.pos + 1⟩)
  | none => (none, st)

/-- ungetc of the byte just read: step the cursor back. -/
def Stream.ungetc (st : Stream) : Stream :=
  ⟨st.data, st.pos - 1⟩

/-- fread of `n` bytes: returns the bytes actually read (possibly fewer than
`n` at end of stream) and advances the cursor past them. -/
def Stream.fread (st : Stream) (n : Nat) : List Nat × Stream :=
  let bytes := (st.data.drop st.pos).take n
  (bytes, ⟨st.data, st.pos + bytes.length⟩)

/-- Bytes remaining before end of stream. -/
def Stream.remaining (st : Stream) : Nat :=
  st.data.length - st.pos

/-- ctype isspace in the C locale. -/
def isspace (c : Nat) : Bool :=
  (c == 32) || (c == 9) || (c == 10) || (c == 11) || (c == 12) || (c == 13)

/-- ctype isdigit. -/
def isdigit (c : Nat) : Bool :=
  (48 ≤ c) && (c ≤ 57)

/-- strcmp(a, b) == 0 for C strings given as their contents (terminating NUL
implicit): walk both strings until a mismatch or a common NUL. -/
def cstr_eq : List Nat → List Nat → Bool
  | [], [] => true
  | [], y :: _ => y == 0
  | x :: _, [] => x == 0
  | x :: xs, y :: ys => if x = y then (if x = 0 then true else cstr_eq xs ys) else false

/-- strncmp(a, b, n) == 0 for C strings given as their contents: compare at
most `n` bytes, stopping early at a mismatch or a common NUL. -/
def strncmp_zero : Nat → List Nat → List Nat → Bool
  | 0, _, _ => true
  | _ + 1, [], [] => true
  | _ + 1, [], y :: _ => y == 0
  | _ + 1, x :: _, [] => x == 0
  | n + 1, x :: xs, y :: ys => if x = y then (if x = 0 then true else strncmp_zero n xs ys) else false

/-- Bytes of an ASCII Lean string literal, for writing concrete inputs. -/
def strBytes (s : String) : List Nat :=
  s.toList.map Char.toNat

/-- struct json_value: the tagged union.  An object payload is the hash map's
bucket array, modelled as a function from bucket index to the bucket's chain
(head of the list = head of the chain).  A number payload is `none` when the C
code leaves the double uninitialized. -/
inductive json_value where
  | object (o : Nat → List (List Nat × json_value))
  | array (a : List json_value)
  | string (s : List Nat)
  | number (n : Option ℚ)
  | boolean (b : Bool)
  | null

/-- obj_t: the bucket array of a JSON object, indexed by bucket number. -/
def obj_t := Nat → List (List Nat × json_value)

/-- A calloc'd obj_t: every bucket chain empty. -/
def empty_obj : obj_t := fun _ => []

/-- Outcome of a C function that can terminate the process: a value plus the
stream state, or process exit with a code, or fuel exhaustion (an artifact of
the embedding, never a statement about the program). -/
inductive PResult (α : Type) where
  | ok (a : α) (st : Stream)
  | exit (code : Nat)
  | fuelOut

end CJson

open CJson

namespace JsonObj

/-- OBJ_SIZE as seen by src/json_obj.c, which includes include/json_obj.h. -/
def OBJ_SIZE : Nat := 1024

/-- obj_hash from src/json_obj.c: djb2 over the key bytes in `size_t`
arithmetic (modulo 2^64), reduced modulo OBJ_SIZE = 1024. -/
def obj_hash (str : List Nat) : Nat :=
  (str.foldl (fun hash c => (hash * 33 + c) % 2 ^ 64) 5381) % OBJ_SIZE

/-- obj_at from src/json_obj.c: walk the bucket chain comparing full key
equality (strcmp); NULL when absent becomes `none`. -/
def obj_at (m : obj_t) (key : List Nat) : Option json_value :=
  ((m (obj_hash key)).find? (fun e => cstr_eq e.1 key)).map (·.2)

/-- obj_insert from src/json_obj.c: walk the bucket chain with
strncmp(cur->key, key, strlen(key)) — a bounded comparison that also matches
when the new key is a proper prefix of a stored key — and fail without
mutating on a match; otherwise prepend the entry at the bucket head.
The NULL-pointer argument checks of the C code guard a condition that has no
counterpart in this value-level model and are omitted; `strdup` of the key is
identity on values. -/
def obj_insert (m : obj_t) (key : List Nat) (value : json_value) : Bool × obj_t :=
  let i := obj_hash key
  if (m i).any (fun cur => strncmp_zero key.length cur.1 key) then
    (false, m)
  else
    (true, fun j => if j = i then (key, value) :: m j else m j)

end JsonObj

namespace JsonValue

/-- OBJ_SIZE as seen by src/json_value.c, which includes include/config.h via
include/json_value.h. -/
def OBJ_SIZE : Nat := 32

/-- obj_hash from src/json_value.c: identical djb2 fold, but reduced modulo
this translation unit's OBJ_SIZE = 32. -/
def obj_hash (str : List Nat) : Nat :=
  (str.foldl (fun hash c => (hash * 33 + c) % 2 ^ 64) 5381) % OBJ_SIZE

/-- obj_at from src/json_value.c (same code as the json_obj.c version, but
over this unit's bucket count). -/
def obj_at (m : obj_t) (key : List Nat) : Option json_value :=
  ((m (obj_hash key)).find? (fun e => cstr_eq e.1 key)).map (·.2)

/-- obj_insert from src/json_value.c: duplicate detection by strcmp — full
key equality — then head insertion.  NULL-argument checks omitted as above. -/
def obj_insert (m : obj_t) (key : List Nat) (value : json_value) : Bool × obj_t :=
  let i := obj_hash key
  if (m i).any (fun cur => cstr_eq cur.1 key) then
    (false, m)
  else
    (true, fun j => if j = i then (key, value) :: m j else m j)

end JsonValue

namespace Parse

/-- EARLY_EOF as defined by the macro at the top of src/parse.c (202; the
conflicting value 200 in include/config.h is not visible in that file). -/
def EARLY_EOF : Nat := 202

/-- UNEXPECTED_CHAR as defined at the top of src/parse.c (200). -/
def UNEXPECTED_CHAR : Nat := 200

/-- EXIT_FAILURE. -/
def EXIT_FAILURE : Nat := 1

/-- The discard_whitespace macro: read bytes while isspace, then push the
first non-space byte back.  The EOF check inside the loop body is dead code in
C (isspace(EOF) is false, so the body is never entered at EOF), and ungetc(EOF)
is a no-op, so at EOF the cursor simply stays put. -/
def discard_whitespace : Nat → Stream → Stream
  | 0, st => st
  | fuel + 1, st =>
    match st.fgetc with
    | (some c, st') => if isspace c then discard_whitespace fuel st' else st
    | (none, _) => st

/-- discard_whitespace with always-sufficient fuel: the loop consumes one byte
per iteration, so `remaining + 1` steps always reach the fixpoint. -/
def skip_ws (st : Stream) : Stream :=
  discard_whitespace (st.remaining + 1) st

/-- read_string from src/parse.c.  The C loop: if `escaped` is set, store a
literal 'c' (byte 99) and clear the flag; otherwise fgetc and switch: on '\\'
set `escaped` and fall through — intentionally, per the comment — to the '"'
case, which terminates the string and returns; on EOF, err(EARLY_EOF); default
appends the byte.  Because the '\\' case returns, the `escaped` branch is
unreachable; it is kept here exactly as written. -/
def read_string : Nat → Stream → Bool → List Nat → PResult (List Nat)
  | 0, _, _, _ => .fuelOut
  | fuel + 1, st, escaped, acc =>
    if escaped then
      read_string fuel st false (acc ++ [99])
    else
      match st.fgetc with
      | (none, _) => .exit EARLY_EOF
      | (some c, st') =>
        if c = 92 then .ok acc st'
        else if c = 34 then .ok acc st'
        else read_string fuel st' false (acc ++ [c])

/-- read_string with always-sufficient fuel (each iteration either consumes a
byte or immediately returns). -/
def read_string_run (st : Stream) : PResult (List Nat) :=
  read_string (2 * st.remaining + 2) st false []

/-- read_boolean from src/parse.c: fread a fixed window of sizeof("false") = 5
bytes; a short read is exit(EXIT_FAILURE); compare the first 4 bytes against
"true" (pushing back the 5th byte on success) and all 5 against "false";
otherwise fseek back 5 bytes and err_ctx(UNEXPECTED_CHAR). -/
def read_boolean (st : Stream) : PResult Bool :=
  let p := st.fread 5
  if p.1.length ≠ 5 then .exit EXIT_FAILURE
  else if strncmp_zero 4 p.1 [116, 114, 117, 101] then .ok true p.2.ungetc
  else if strncmp_zero 5 p.1 [102, 97, 108, 115, 101] then .ok false p.2
  else .exit UNEXPECTED_CHAR

/-- read_null from src/parse.c: fread 4 bytes; a short read is
err(EXIT_FAILURE); a mismatch with "null" is err_ctx(UNEXPECTED_CHAR). -/
def read_null (st : Stream) : PResult Unit :=
  let p := st.fread 4
  if p.1.length ≠ 4 then .exit EXIT_FAILURE
  else if strncmp_zero 4 p.1 [110, 117, 108, 108] then .ok () p.2
  else .exit UNEXPECTED_CHAR

/-- Digit list to the natural number it denotes. -/
def natFromDigits (l : List Nat) : Nat :=
  l.foldl (fun a d => a * 10 + (d - 48)) 0

/-- fscanf(fp, "%lf", &n): skip whitespace (consumed permanently), then match
an optional sign, a digit run, an optional fraction, and an optional exponent;
a match needs at least one mantissa digit.  On matching failure nothing past
the whitespace is consumed and the output variable is not assigned (`none`).
C scanf's hex/inf/nan forms are not modelled, and an `e` not followed by
digits is treated as end of match rather than scanf's wholesale failure;
neither case is reachable from any input a theorem below uses. -/
def scanf_lf (st : Stream) : Option ℚ × Stream :=
  let st1 := skip_ws st
  let rest := st1.data.drop st1.pos
  let sgn : ℚ × List Nat × Nat :=
    match rest with
    | 45 :: r => (-1, r, 1)
    | 43 :: r => (1, r, 1)
    | r => (1, r, 0)
  let ds := sgn.2.1.takeWhile isdigit
  let rest2 := sgn.2.1.drop ds.length
  let frac : List Nat × List Nat × Nat :=
    match rest2 with
    | 46 :: r => (r.takeWhile isdigit, r.drop (r.takeWhile isdigit).length,
        1 + (r.takeWhile isdigit).length)
    | r => ([], r, 0)
  if ds.length = 0 ∧ frac.1.length = 0 then (none, st1)
  else
    let mantissa : ℚ :=
      sgn.1 * ((natFromDigits ds : ℚ) + (natFromDigits frac.1 : ℚ) / (10 : ℚ) ^ frac.1.length)
    let ex : ℚ × Nat :=
      match frac.2.1 with
      | 101 :: r => expPart mantissa r
      | 69 :: r => expPart mantissa r
      | _ => (mantissa, 0)
    (some ex.1, ⟨st1.data, st1.pos + sgn.2.2 + ds.length + frac.2.2 + ex.2⟩)
where
  /-- The exponent tail of a %lf match, given the mantissa and the bytes after
  the `e`/`E`: optional sign then digits. -/
  expPart (mantissa : ℚ) (r : List Nat) : ℚ × Nat :=
    let es : Bool × List Nat × Nat :=
      match r with
      | 45 :: rr => (true, rr, 1)
      | 43 :: rr => (false, rr, 1)
      | rr => (false, rr, 0)
    let digits := es.2.1.takeWhile isdigit
    if digits.length = 0 then (mantissa, 0)
    else if es.1 then (mantissa / (10 : ℚ) ^ natFromDigits digits, 1 + es.2.2 + digits.length)
    else (mantissa * (10 : ℚ) ^ natFromDigits digits, 1 + es.2.2 + digits.length)

/-- read_number from src/parse.c: fscanf("%lf") into an uninitialized double
and return it; `none` is the indeterminate value left by a matching failure. -/
def read_number (st : Stream) : Option ℚ × Stream :=
  scanf_lf st

mutual

/-- parse_json_value from src/parse.c: skip whitespace, fgetc one byte and
dispatch.  Note the digit case does not push the byte back before
read_number, while 't'/'f'/'n' do push back. -/
def parse_json_value : Nat → Stream → PResult json_value
  | 0, _ => .fuelOut
  | fuel + 1, st =>
    match (skip_ws st).fgetc with
    | (none, _) => .exit EARLY_EOF
    | (some c, st2) =>
      if c = 123 then
        match read_object fuel st2 empty_obj with
        | .ok o st3 => .ok (.object o) st3
        | .exit e => .exit e
        | .fuelOut => .fuelOut
      else if c = 34 then
        match read_string_run st2 with
        | .ok s st3 => .ok (.string s) st3
        | .exit e => .exit e
        | .fuelOut => .fuelOut
      else if c = 91 then
        match read_array fuel st2 [] with
        | .ok a st3 => .ok (.array a) st3
        | .exit e => .exit e
        | .fuelOut => .fuelOut
      else if c = 116 ∨ c = 102 then
        match read_boolean st2.ungetc with
        | .ok b st3 => .ok (.boolean b) st3
        | .exit e => .exit e
        | .fuelOut => .fuelOut
      else if c = 110 then
        match read_null st2.ungetc with
        | .ok _ st3 => .ok .null st3
        | .exit e => .exit e
        | .fuelOut => .fuelOut
      else if isdigit c then
        let p := read_number st2
        .ok (.number p.1) p.2
      else
        .exit UNEXPECTED_CHAR

/-- read_object from src/parse.c, with the calloc'd empty map threaded as an
accumulator.  Keys are read with read_string; pairs are inserted with the
3-argument obj_insert declared by include/json_obj.h (src/json_obj.c); a
rejected insertion is errx(EXIT_FAILURE). -/
def read_object : Nat → Stream → obj_t → PResult obj_t
  | 0, _, _ => .fuelOut
  | fuel + 1, st, result =>
    match (skip_ws st).fgetc with
    | (none, _) => .exit EARLY_EOF
    | (some c, st2) =>
      if c = 34 then
        match read_string_run st2 with
        | .ok key st3 =>
          match (skip_ws st3).fgetc with
          | (none, _) => .exit EARLY_EOF
          | (some c2, st5) =>
            if c2 = 58 then
              match parse_json_value fuel (skip_ws st5) with
              | .ok val st7 =>
                let ins := JsonObj.obj_insert result key val
                if ins.1 then
                  match (skip_ws st7).fgetc with
                  | (none, _) => .exit EARLY_EOF
                  | (some c3, st9) =>
                    if c3 = 44 then read_object fuel st9 ins.2
                    else if c3 = 125 then .ok ins.2 st9
                    else .exit UNEXPECTED_CHAR
                else .exit EXIT_FAILURE
              | .exit e => .exit e
              | .fuelOut => .fuelOut
            else .exit UNEXPECTED_CHAR
        | .exit e => .exit e
        | .fuelOut => .fuelOut
      else if c = 125 then .ok result st2
      else .exit UNEXPECTED_CHAR

/-- read_array from src/parse.c: skip whitespace and fgetc; ']' returns the
elements collected so far, a comma is consumed and the loop continues with no
element appended, anything else is pushed back and parsed as a value. -/
def read_array : Nat → Stream → List json_value → PResult (List json_value)
  | 0, _, _ => .fuelOut
  | fuel + 1, st, output =>
    match (skip_ws st).fgetc with
    | (none, _) => .exit EARLY_EOF
    | (some c, st2) =>
      if c = 93 then .ok output st2
      else if c = 44 then read_array fuel st2 output
      else
        match parse_json_value fuel st2.ungetc with
        | .ok v st3 => read_array fuel st3 (output ++ [v])
        | .exit e => .exit e
        | .fuelOut => .fuelOut

end

end Parse

namespace JsonValue

/-- add_indent: print n spaces; a negative int argument prints nothing. -/
def add_indent (n : Int) : String :=
  String.mk (List.replicate n.toNat (Char.ofNat 32))

/-- Bytes to a Lean string, for modelling printf of C strings (every byte a
printable ASCII character on the inputs theorems use). -/
def strOfBytes (l : List Nat) : String :=
  String.mk (l.map Char.ofNat)

/-- Zero-padded 6-digit rendering of a natural number below 10^6. -/
def pad6 (k : Nat) : String :=
  String.mk (List.replicate (6 - (toString k).length) (Char.ofNat 48)) ++ toString k

/-- printf("%lf", n): sign, integer part, '.', six fractional digits, with the
value rounded to 6 decimals.  Exact for every value a theorem below prints (a
small integer).  An uninitialized double (`none`) prints an unspecified byte
sequence in C; the model uses a placeholder no theorem relies on. -/
def format_lf : Option ℚ → String
  | none => "?"
  | some q =>
    let n : Nat := (round (|q| * 1000000) : ℤ).toNat
    (if q < 0 then "-" else "") ++ toString (n / 1000000) ++ "." ++ pad6 (n % 1000000)

mutual

/-- print_json_value from src/json_value.c: dispatch on the tag; objects and
arrays are printed at cur_indent + indent_amount, as at the C call sites. -/
def print_json_value : Nat → json_value → Int → Int → String
  | 0, _, _, _ => ""
  | fuel + 1, v, cur_indent, indent_amount =>
    match v with
    | .string s => "\"" ++ strOfBytes s ++ "\""
    | .number n => format_lf n
    | .boolean b => if b then "true" else "false"
    | .null => "null"
    | .object o => print_object fuel o (cur_indent + indent_amount) indent_amount
    | .array a => print_array fuel a (cur_indent + indent_amount) indent_amount

/-- print_object from src/json_value.c: iterate the OBJ_SIZE (= 32 in this
translation unit) buckets in order, then close the brace at
cur_indent - indent_amount * 2. -/
def print_object : Nat → obj_t → Int → Int → String
  | 0, _, _, _ => ""
  | fuel + 1, o, cur_indent, indent_amount =>
    let body := print_buckets fuel ((List.range OBJ_SIZE).map o) cur_indent indent_amount true
    "\x7b" ++ body.1 ++ "\n" ++ add_indent (cur_indent - indent_amount * 2) ++ "\x7d"

/-- The outer bucket loop of print_object, threading the `first` flag. -/
def print_buckets : Nat → List (List (List Nat × json_value)) → Int → Int → Bool → String × Bool
  | 0, _, _, _, first => ("", first)
  | _ + 1, [], _, _, first => ("", first)
  | fuel + 1, b :: rest, cur_indent, indent_amount, first =>
    let here := print_entries fuel b cur_indent indent_amount first
    let tail := print_buckets fuel rest cur_indent indent_amount here.2
    (here.1 ++ tail.1, tail.2)

/-- The chain loop of print_object: a comma before every entry but the first,
then newline, indent, quoted key, ": ", and the value one level deeper. -/
def print_entries : Nat → List (List Nat × json_value) → Int → Int → Bool → String × Bool
  | 0, _, _, _, first => ("", first)
  | _ + 1, [], _, _, first => ("", first)
  | fuel + 1, e :: rest, cur_indent, indent_amount, first =>
    let here := (if first then "" else ",") ++ "\n" ++ add_indent cur_indent ++
      "\"" ++ strOfBytes e.1 ++ "\": " ++
      print_json_value fuel e.2 (cur_indent + indent_amount) indent_amount
    let tail := print_entries fuel rest cur_indent indent_amount false
    (here ++ tail.1, tail.2)

/-- print_array from src/json_value.c: an empty array prints "[]"; otherwise
each element on its own indented line, comma after all but the last, closing
bracket at cur_indent - indent_amount * 2. -/
def print_array : Nat → List json_value → Int → Int → String
  | 0, _, _, _ => ""
  | fuel + 1, arr, cur_indent, indent_amount =>
    match arr with
    | [] => "[]"
    | _ :: _ =>
      "[" ++ print_items fuel arr cur_indent indent_amount ++
        "\n" ++ add_indent (cur_indent - indent_amount * 2) ++ "]"

/-- The element loop of print_array. -/
def print_items : Nat → List json_value → Int → Int → String
  | 0, _, _, _ => ""
  | _ + 1, [], _, _ => ""
  | fuel + 1, v :: rest, cur_indent, indent_amount =>
    "\n" ++ add_indent cur_indent ++
      print_json_value fuel v (cur_indent + indent_amount) indent_amount ++
      (if rest.isEmpty then "" else ",") ++
      print_items fuel rest cur_indent indent_amount

end

/-- print_json from src/json_value.c: print the value at indent 0. -/
def print_json (fuel : Nat) (val : json_value) (indent : Int) : String :=
  print_json_value fuel val 0 indent

end JsonValue

namespace Util

/-- ERROR_CONTEXT_LEN as seen by src/util.c via include/config.h. -/
def ERROR_CONTEXT_LEN : Nat := 60

/-- The first rendering loop of err_ctx in src/util.c (window bytes before
the failure offset): newline, carriage return and tab become two-byte escape
sequences and advance the caret offset by 2; every other byte is emitted raw
and advances it by 1.  Output is the emitted byte sequence. -/
def render_first : List Nat → List Nat × Nat
  | [] => ([], 0)
  | c :: rest =>
    let tail := render_first rest
    if c = 10 then (92 :: 110 :: tail.1, tail.2 + 2)
    else if c = 13 then (92 :: 114 :: tail.1, tail.2 + 2)
    else if c = 9 then (92 :: 116 :: tail.1, tail.2 + 2)
    else (c :: tail.1, tail.2 + 1)

/-- The second rendering loop of err_ctx in src/util.c (window bytes from the
failure offset on): only newline and tab are escaped; a carriage return falls
into the default case and is emitted raw. -/
def render_second : List Nat → List Nat
  | [] => []
  | c :: rest =>
    let tail := render_second rest
    if c = 10 then 92 :: 110 :: tail
    else if c = 9 then 92 :: 116 :: tail
    else c :: tail

/-- The diagnostic bytes err_ctx of src/util.c writes after the formatted
message: fseek back ERROR_CONTEXT_LEN/2 = 30 bytes (when the current offset is
smaller, the fseek fails and the whole context block is skipped), fread up to
60 bytes, render the two halves, then print arrow_offset - 2 spaces and a
caret.  The leading formatted message and " (at index %zu)" line are varargs
text independent of the window and are not modelled. -/
def err_ctx_context (st : Stream) : List Nat :=
  if st.pos < ERROR_CONTEXT_LEN / 2 then []
  else
    let window := (st.data.drop (st.pos - ERROR_CONTEXT_LEN / 2)).take ERROR_CONTEXT_LEN
    let fr := render_first (window.take (ERROR_CONTEXT_LEN / 2))
    let sec := render_second (window.drop (ERROR_CONTEXT_LEN / 2))
    strBytes "\ncontext:\n" ++ fr.1 ++ sec ++ [10] ++ List.replicate (fr.2 - 2) 32 ++ [94, 10]

end Util

/-- Modelled from the spec: the djb2 fold exactly as §4.2 words it — seed
5381, multiply by 33 and add the byte per character — with no machine-width
reduction; the comparator for the C7 refinement claim. -/
def djb2_spec (key : List Nat) : Nat :=
  key.foldl (fun hash c => hash * 33 + c) 5381

/-- strncmp(a, a, n) compares equal for any bound. -/
theorem strncmp_zero_self (n : Nat) (a : List Nat) : strncmp_zero n a a = true := by
  induction a generalizing n with
  | nil => cases n <;> rfl
  | cons x xs ih =>
    cases n with
    | zero => rfl
    | succ n => simp [strncmp_zero, ih]

/-- strcmp(a, a) compares equal. -/
theorem cstr_eq_self (a : List Nat) : cstr_eq a a = true := by
  induction a with
  | nil => rfl
  | cons x xs ih => simp [cstr_eq, ih]

/-- The djb2 fold with per-step reduction modulo 2^64 agrees with the
unreduced fold modulo any divisor of 2^64. -/
theorem foldl_hash_mod (d : Nat) (hd : d ∣ 2 ^ 64) :
    ∀ (l : List Nat) (h1 h2 : Nat), h1 % d = h2 % d →
      (l.foldl (fun hash c => (hash * 33 + c) % 2 ^ 64) h1) % d
        = (l.foldl (fun hash c => hash * 33 + c) h2) % d := by
  intro l
  induction l with
  | nil => intro h1 h2 h; simpa using h
  | cons c l ih =>
    intro h1 h2 h
    simp only [List.foldl_cons]
    apply ih
    rw [Nat.mod_mod_of_dvd _ hd]
    exact Nat.ModEq.add_right c (Nat.ModEq.mul_right 33 h)

/-- C1: refuted as stated — parse followed by print does not round-trip.  The
valid JSON number literal "12" parses to the number 2.0 (parse_json_value
consumes the first digit before calling read_number), print_json renders 2.0
as "2.000000", and that text parses back to the number 0.0 (the leading '2' is
again consumed, leaving fscanf ".000000"), which is not structurally
equivalent to 2.0. -/
theorem c1_print_parse_roundtrip_fails :
    Parse.parse_json_value 10 ⟨strBytes "12", 0⟩
        = .ok (.number (some 2)) ⟨strBytes "12", 2⟩ ∧
    JsonValue.print_json 10 (.number (some 2)) 1 = "2.000000" ∧
    Parse.parse_json_value 10 ⟨strBytes "2.000000", 0⟩
        = .ok (.number (some 0)) ⟨strBytes "2.000000", 8⟩ ∧
    (2 : ℚ) ≠ 0 :=
  ⟨by with_unfolding_all rfl, by with_unfolding_all rfl, by with_unfolding_all rfl, by norm_num⟩

/-- C2: refuted as stated — on the input "a\"b" (quoted), read_string
terminates at the backslash itself: the '\\' case of its switch sets the
escaped flag but falls through into the '"' case and returns, so the result
is the one-byte string "a" with the stream left on the escaped quote (offset
3), not a verbatim copy of backslash and quote. -/
theorem c2_read_string_stops_at_backslash :
    Parse.parse_json_value 10 ⟨strBytes "\"a\\\"b\"", 0⟩
        = .ok (.string [97]) ⟨strBytes "\"a\\\"b\"", 3⟩ ∧
    strBytes "\"a\\\"b\"" = [34, 97, 92, 34, 98, 34] :=
  ⟨rfl, rfl⟩

/-- C3: refuted as stated — parse_json_value does not push the discriminating
digit back before read_number.  "[1,2,3]" parses to three number values whose
payloads are the indeterminate contents of an uninitialized double (fscanf
fails to match at each comma), and the two-digit input "12" parses to 2.0,
not 12.0. -/
theorem c3_digit_not_pushed_back :
    Parse.parse_json_value 20 ⟨strBytes "[1,2,3]", 0⟩
        = .ok (.array [.number none, .number none, .number none]) ⟨strBytes "[1,2,3]", 7⟩ ∧
    Parse.parse_json_value 10 ⟨strBytes "12", 0⟩
        = .ok (.number (some 2)) ⟨strBytes "12", 2⟩ :=
  ⟨rfl, by with_unfolding_all rfl⟩

/-- C4: refuted as stated — obj_insert's duplicate detection uses
strncmp(cur->key, key, strlen(key)), a prefix comparison.  The keys "a0P" and
"a" are distinct and hash to the same bucket (518 of 1024); after "a0P" is
inserted into an empty map, "a" is absent (obj_at returns NULL), yet
inserting "a" is rejected and the map is returned unchanged. -/
theorem c4_insert_rejects_distinct_key :
    (JsonObj.obj_insert empty_obj (strBytes "a0P") .null).1 = true ∧
    JsonObj.obj_at (JsonObj.obj_insert empty_obj (strBytes "a0P") .null).2 [97] = none ∧
    JsonObj.obj_insert (JsonObj.obj_insert empty_obj (strBytes "a0P") .null).2 [97] .null
        = (false, (JsonObj.obj_insert empty_obj (strBytes "a0P") .null).2) ∧
    strBytes "a0P" ≠ [97] :=
  ⟨rfl, rfl, rfl, by decide⟩

/-- C5: for every map and every key already present in its bucket, obj_insert
returns the duplicate signal false and returns the map unchanged — in both
the json_obj.c version (strncmp walk) and the json_value.c version (strcmp
walk). -/
theorem c5_duplicate_insert_unchanged (m : obj_t) (key : List Nat) (v : json_value) :
    (key ∈ (m (JsonObj.obj_hash key)).map Prod.fst →
      JsonObj.obj_insert m key v = (false, m)) ∧
    (key ∈ (m (JsonValue.obj_hash key)).map Prod.fst →
      JsonValue.obj_insert m key v = (false, m)) := by
  constructor
  · intro h
    obtain ⟨e, he, heq⟩ := List.mem_map.mp h
    have hany : (m (JsonObj.obj_hash key)).any
        (fun cur => strncmp_zero key.length cur.1 key) = true :=
      List.any_eq_true.mpr ⟨e, he, by rw [heq]; exact strncmp_zero_self key.length key⟩
    simp [JsonObj.obj_insert, hany]
  · intro h
    obtain ⟨e, he, heq⟩ := List.mem_map.mp h
    have hany : (m (JsonValue.obj_hash key)).any (fun cur => cstr_eq cur.1 key) = true :=
      List.any_eq_true.mpr ⟨e, he, by rw [heq]; exact cstr_eq_self key⟩
    simp [JsonValue.obj_insert, hany]

/-- C5 witness: a concrete map holding the key "a" in bucket 518 (json_obj.c
hashing) and bucket 6 (json_value.c hashing); both inserts of "a" are
rejected without change. -/
theorem c5_duplicate_insert_unchanged_witness :
    JsonObj.obj_insert
        (fun i => if i = 518 ∨ i = 6 then [([97], json_value.null)] else []) [97] .null
      = (false, fun i => if i = 518 ∨ i = 6 then [([97], json_value.null)] else []) ∧
    JsonValue.obj_insert
        (fun i => if i = 518 ∨ i = 6 then [([97], json_value.null)] else []) [97] .null
      = (false, fun i => if i = 518 ∨ i = 6 then [([97], json_value.null)] else []) :=
  ⟨(c5_duplicate_insert_unchanged _ [97] .null).1 (by decide),
   (c5_duplicate_insert_unchanged _ [97] .null).2 (by decide)⟩

/-- C6: counterexample to the claim as stated — parsing "tru" exits with the
generic failure code 1 (read_boolean's short-read check calls
exit(EXIT_FAILURE)), not with the EarlyEOF code, and parsing "trux" (4 bytes)
also exits with 1, not with the UnexpectedChar code; 1 is none of the
distinguished codes 202/200 (parse.c) or 200/201 (config.h). -/
theorem c6_tru_exits_generic :
    Parse.parse_json_value 10 ⟨strBytes "tru", 0⟩ = .exit 1 ∧
    Parse.parse_json_value 10 ⟨strBytes "trux", 0⟩ = .exit 1 ∧
    (1 : Nat) ≠ 202 ∧ (1 : Nat) ≠ 200 ∧ (1 : Nat) ≠ 201 :=
  ⟨rfl, rfl, by decide, by decide, by decide⟩

/-- C6 amended: read_boolean requires 5 readable bytes, so both "tru" and
"trux" fail with the generic EXIT_FAILURE code 1; a 5-byte input that matches
neither "true" nor "false", such as "truxy", fails with the UnexpectedChar
code 200. -/
theorem c6_boolean_exit_codes :
    Parse.parse_json_value 10 ⟨strBytes "tru", 0⟩ = .exit Parse.EXIT_FAILURE ∧
    Parse.parse_json_value 10 ⟨strBytes "trux", 0⟩ = .exit Parse.EXIT_FAILURE ∧
    Parse.parse_json_value 10 ⟨strBytes "truxy", 0⟩ = .exit Parse.UNEXPECTED_CHAR :=
  ⟨rfl, rfl, rfl⟩

/-- C7: counterexample to the claim as stated — the obj_hash compiled in
src/json_obj.c reduces modulo the OBJ_SIZE of include/json_obj.h, which is
1024, not 32: the key "a" hashes to 518, outside [0, 32). -/
theorem c7_bucket_not_32 :
    JsonObj.obj_hash [97] = 518 ∧ ¬ JsonObj.obj_hash [97] < 32 :=
  ⟨by decide, by decide⟩

/-- C7 amended: obj_hash is the deterministic djb2 fold (seed 5381, times 33
plus byte, in size_t arithmetic) reduced modulo the bucket count, so the
result lies in [0, bucket_count) — but the bucket count is 1024 for the
obj_hash of src/json_obj.c (include/json_obj.h's OBJ_SIZE) and 32 only for
the duplicate copy in src/json_value.c (include/config.h's OBJ_SIZE). -/
theorem c7_obj_hash_djb2 (key : List Nat) :
    (JsonObj.obj_hash key = djb2_spec key % 1024 ∧ JsonObj.obj_hash key < 1024) ∧
    (JsonValue.obj_hash key = djb2_spec key % 32 ∧ JsonValue.obj_hash key < 32) := by
  refine ⟨⟨?_, ?_⟩, ⟨?_, ?_⟩⟩
  · exact foldl_hash_mod 1024 ⟨2 ^ 54, by norm_num⟩ key 5381 5381 rfl
  · exact Nat.mod_lt _ (by decide)
  · exact foldl_hash_mod 32 ⟨2 ^ 59, by norm_num⟩ key 5381 5381 rfl
  · exact Nat.mod_lt _ (by decide)

/-- C8: counterexample to the claim as stated — a carriage return located at
or after the failure offset (the second half of the context window) is
emitted raw by err_ctx, not as the two-character escape: with 30 'x' bytes
before the failure offset and "\r A" after it, the rendered window contains
the raw byte 13. -/
theorem c8_carriage_return_unescaped :
    Util.err_ctx_context ⟨List.replicate 30 120 ++ [13, 65], 30⟩
        = strBytes "\ncontext:\n" ++ List.replicate 30 120 ++ [13, 65, 10]
          ++ List.replicate 28 32 ++ [94, 10] ∧
    13 ∈ Util.err_ctx_context ⟨List.replicate 30 120 ++ [13, 65], 30⟩ :=
  ⟨by decide, by decide⟩

/-- C8 amended: in the rendered window, newline and tab are always escaped,
and carriage return is escaped only in the first half (before the failure
offset); in the second half a carriage return is emitted raw; and when fewer
than ERROR_CONTEXT_LEN/2 = 30 bytes precede the failure offset the fseek
fails and the context window is omitted entirely rather than clamped. -/
theorem c8_err_ctx_escape_policy :
    (∀ bytes, 10 ∉ (Util.render_first bytes).1 ∧ 13 ∉ (Util.render_first bytes).1 ∧
      9 ∉ (Util.render_first bytes).1) ∧
    (∀ bytes, 10 ∉ Util.render_second bytes ∧ 9 ∉ Util.render_second bytes) ∧
    Util.render_second [13] = [13] ∧
    (∀ st : Stream, st.pos < 30 → Util.err_ctx_context st = []) := by
  refine ⟨?_, ?_, by decide, ?_⟩
  · intro bytes
    induction bytes with
    | nil =>
      exact ⟨by simp [Util.render_first], by simp [Util.render_first],
        by simp [Util.render_first]⟩
    | cons c rest ih =>
      obtain ⟨ih10, ih13, ih9⟩ := ih
      refine ⟨?_, ?_, ?_⟩
      all_goals simp only [Util.render_first]
      all_goals split
      all_goals try split
      all_goals try split
      all_goals simp_all
      all_goals omega
  · intro bytes
    induction bytes with
    | nil => exact ⟨by simp [Util.render_second], by simp [Util.render_second]⟩
    | cons c rest ih =>
      obtain ⟨ih10, ih9⟩ := ih
      refine ⟨?_, ?_⟩
      all_goals simp only [Util.render_second]
      all_goals split
      all_goals try split
      all_goals simp_all
      all_goals omega
  · intro st h
    simp [Util.err_ctx_context, Util.ERROR_CONTEXT_LEN, h]

/-- C8 amended witness: at failure offset 0 (fewer than 30 preceding bytes)
the context window is omitted. -/
theorem c8_err_ctx_escape_policy_witness :
    Util.err_ctx_context ⟨[120, 121], 0⟩ = [] :=
  c8_err_ctx_escape_policy.2.2.2 ⟨[120, 121], 0⟩ (by decide)

/-- C9: read_boolean unconditionally freads a 5-byte window; whenever fewer
than 5 bytes remain it exits with the generic EXIT_FAILURE code 1 instead of
returning a boolean, so the bare 4-byte top-level input "true" is never
successfully parsed. -/
theorem c9_read_boolean_needs_five :
    (∀ st : Stream, st.remaining < 5 → Parse.read_boolean st = .exit Parse.EXIT_FAILURE) ∧
    Parse.parse_json_value 10 ⟨strBytes "true", 0⟩ = .exit Parse.EXIT_FAILURE := by
  constructor
  · intro st h
    simp only [Stream.remaining] at h
    simp only [Parse.read_boolean, Stream.fread]
    split
    · rfl
    · rename_i hc
      exfalso
      apply hc
      intro hlen
      rw [List.length_take, List.length_drop] at hlen
      omega
  · rfl

/-- C9 witness: the exact input "true" (4 bytes remaining) makes read_boolean
exit with code 1. -/
theorem c9_read_boolean_needs_five_witness :
    Parse.read_boolean ⟨strBytes "true", 0⟩ = .exit Parse.EXIT_FAILURE :=
  c9_read_boolean_needs_five.1 ⟨strBytes "true", 0⟩ (by decide)

/-- C10: a comma met by read_array where an element could start is consumed
as an ignorable separator, with no element appended and no placeholder
produced — stated generally as a step equation on read_array — and the array
body "[,true,,false,]" with leading, repeated and trailing commas parses
successfully to exactly the two-element sequence [true, false] in input
order. -/
theorem c10_read_array_comma_skip :
    (∀ (fuel : Nat) (st st2 : Stream) (output : List json_value),
      (Parse.skip_ws st).fgetc = (some 44, st2) →
      Parse.read_array (fuel + 1) st output = Parse.read_array fuel st2 output) ∧
    Parse.parse_json_value 20 ⟨strBytes "[,true,,false,]", 0⟩
        = .ok (.array [.boolean true, .boolean false]) ⟨strBytes "[,true,,false,]", 15⟩ := by
  constructor
  · intro fuel st st2 output h
    simp only [Parse.read_array]
    rw [h]
    simp
  · rfl

/-- C10 witness: one comma-skipping step of read_array on the concrete stream
",]" at offset 0. -/
theorem c10_read_array_comma_skip_witness :
    Parse.read_array 4 ⟨[44, 93], 0⟩ [] = Parse.read_array 3 ⟨[44, 93], 1⟩ [] :=
  c10_read_array_comma_skip.1 3 ⟨[44, 93], 0⟩ ⟨[44, 93], 1⟩ [] rfl
